import Mathlib

/-!
Shallow embedding of `src/pubsub.js` (ptrdo/pubsub), an in-process
publish/subscribe dispatcher with a cross-window message bridge.

The registry `pubsub.events` is a plain JS object mapping event names to
arrays of subscription records; we model it as an association list that
preserves key insertion order (JS objects preserve string-key insertion
order).  JS truthiness of a string argument is modelled as "not the empty
string".  A subscription record is `{observer, callback}` (local) or
`{observer, payload}` (remote); the source distinguishes them with
`"payload" in instance`, which we model with the `Slot` inductive.

Handler callbacks are opaque to the registry: `publish` calls
`instance.callback(data)`, which may throw and may mutate the registry.
We model callback behaviour by an environment `HEnv` mapping a callback
identifier and the published data to the new registry plus a "threw"
flag; `publish` wraps every invocation in try/catch (source lines 69-77),
so the flag is discarded (only a console.warn is emitted) and iteration
continues — which is why the Lean model of `publish` is a total function.

`Array.prototype.forEach` fixes the length at the start of the loop and
re-reads the element at each index from the current array, so a handler
that splices the bucket shifts later elements under the iteration.  We
model this exactly: `publish` folds over `List.range length₀` and reads
the bucket at each index from the current registry (faithful for in-place
mutation such as `splice`, and for handlers that do not touch the bucket).
-/

namespace PubSub

/-- A JS value passed as the third (`callback`) argument of `subscribe`:
a function, a truthy non-function object (e.g. a whole message), or
`undefined`. -/
inductive CbArg where
  | func (f : Nat)
  | obj (p : Nat)
  | undef
deriving DecidableEq

/-- The payload-or-callback part of a subscription record.  `callback`
models `{observer, callback}` (local delivery); `payload` models
`{observer, payload}` (remote delivery), so `"payload" in instance`
holds exactly on the `payload` constructor. -/
inductive Slot where
  | callback (f : Nat)
  | payload (p : CbArg)
deriving DecidableEq

/-- A subscription record pushed into an event bucket. -/
structure Record where
  observer : String
  slot : Slot
deriving DecidableEq

/-- The registry `pubsub.events`: event name to bucket, in key insertion
order. -/
abbrev Events := List (String × List Record)

/-- Property read `this.events[eventName]`: `some bucket` when the key
exists, `none` (JS `undefined`) otherwise. -/
def lookupE : Events → String → Option (List Record)
  | [], _ => none
  | (k, v) :: rest, name => if k = name then some v else lookupE rest name

/-- Assignment `this.events[name] = b`: overwrite in place when the key
exists, append the new key otherwise (JS object key order). -/
def setBucket : Events → String → List Record → Events
  | [], name, b => [(name, b)]
  | (k, v) :: rest, name, b =>
      if k = name then (name, b) :: rest else (k, v) :: setBucket rest name b

/-- Character-list test that `pat` is a prefix of `s` (structural, so the
kernel can evaluate it). -/
def beginsWith : List Char → List Char → Bool
  | [], _ => true
  | _ :: _, [] => false
  | p :: ps, c :: cs => if p = c then beginsWith ps cs else false

/-- Character-list test that `pat` occurs as a contiguous run of `s`. -/
def occursIn (pat : List Char) : List Char → Bool
  | [] => beginsWith pat []
  | c :: cs => beginsWith pat (c :: cs) || occursIn pat cs

/-- The regex test `/^http/i.test(observer)` from `subscribe`:
case-insensitive "http" at the start of the observer string. -/
def isHttpObserver (observer : String) : Bool :=
  beginsWith "http".data (observer.data.map Char.toLower)

/-- Source `subscribe(eventName, observer, callback)` (lines 19-31).
A falsy (empty) event name only logs an error.  Otherwise: a callable
`callback` is pushed as a local record; else, if the observer looks like
a URL, the third argument is captured as the `payload` of a remote
record; any other combination is a silent no-op. -/
def subscribe (evs : Events) (eventName observer : String) (callback : CbArg) : Events :=
  if eventName = "" then evs
  else
    match callback with
    | CbArg.func f =>
        setBucket evs eventName
          ((lookupE evs eventName).getD [] ++ [⟨observer, Slot.callback f⟩])
    | c =>
        if isHttpObserver observer then
          setBucket evs eventName
            ((lookupE evs eventName).getD [] ++ [⟨observer, Slot.payload c⟩])
        else evs

/-- The first (`eventNames`) argument of `subscribeMultiple`: either a JS
array of strings or some non-array value with the given truthiness. -/
inductive ArrArg where
  | arr (names : List String)
  | nonArr (truthy : Bool)
deriving DecidableEq

/-- Source `subscribeMultiple(eventNames, observer, callback)` (lines
32-43).  The guard is `!!eventNames && Array.isArray(eventNames)`; note
an empty array is truthy in JS, so it passes the guard.  The returned
Bool records whether the `console.error` advisory diagnostic ran (the
`else` branch of the guard). -/
def subscribeMultiple (evs : Events) (eventNames : ArrArg) (observer : String)
    (callback : CbArg) : Events × Bool :=
  match eventNames with
  | ArrArg.arr names =>
      match callback with
      | CbArg.func f =>
          (names.foldl
            (fun e name =>
              setBucket e name ((lookupE e name).getD [] ++ [⟨observer, Slot.callback f⟩]))
            evs, false)
      | _ => (evs, false)
  | ArrArg.nonArr _ => (evs, true)

/-- The bucket-level effect of the `unsubscribe` loop (lines 46-51): scan
in order, `splice` out the first record whose observer matches, `break`. -/
def removeFirst : List Record → String → List Record
  | [], _ => []
  | r :: rs, o => if r.observer = o then rs else r :: removeFirst rs o

/-- Source `unsubscribe(eventName, observer)` (lines 44-55): guarded by
`!!eventName && eventName in this.events`; otherwise only logs. -/
def unsubscribe (evs : Events) (eventName observer : String) : Events :=
  if eventName ≠ "" ∧ (lookupE evs eventName).isSome then
    setBucket evs eventName (removeFirst ((lookupE evs eventName).getD []) observer)
  else evs

/-- Source `unsubscribeObserver(observer)` (lines 56-64): guarded by
`!!observer`; reassigns every bucket to the array filtered by
`subscription.observer !== observer`. -/
def unsubscribeObserver (evs : Events) (observer : String) : Events :=
  if observer = "" then evs
  else evs.map (fun kv => (kv.1, kv.2.filter (fun r => r.observer != observer)))

/-- One observed invocation during `publish`: a local callback call
`instance.callback(data)` or a remote send `publishRemotely(instance, data)`. -/
inductive Call where
  | localCall (observer : String) (f : Nat) (data : Nat)
  | remote (observer : String) (data : Nat)
deriving DecidableEq

/-- Behaviour of the opaque callback functions: given the callback id,
the published data and the current registry, return the registry after
the callback ran together with a flag saying whether it threw. -/
abbrev HEnv := Nat → Nat → Events → Events × Bool

/-- Registry plus the trace of invocations made so far. -/
structure DispState where
  events : Events
  trace : List Call
deriving DecidableEq

/-- The try/catch body of `publish`'s forEach (lines 68-78): a `payload`
record goes to `publishRemotely` (which only touches windows, never the
registry); otherwise the callback runs, possibly mutating the registry
and possibly throwing — the catch discards the throw (it only logs a
console.warn), so the "threw" flag does not influence the result. -/
def dispatchOne (env : HEnv) (data : Nat) (inst : Record) (st : DispState) : DispState :=
  match inst.slot with
  | Slot.payload _ => ⟨st.events, st.trace ++ [Call.remote inst.observer data]⟩
  | Slot.callback f =>
      ⟨(env f data st.events).1, st.trace ++ [Call.localCall inst.observer f data]⟩

/-- One index step of the forEach: re-read the bucket from the current
registry; if the index is still in range, dispatch the record now sitting
there, else skip (the HasProperty check of `Array.prototype.forEach`). -/
def publishAt (env : HEnv) (eventName : String) (data : Nat) (st : DispState)
    (k : Nat) : DispState :=
  match ((lookupE st.events eventName).getD [])[k]? with
  | none => st
  | some inst => dispatchOne env data inst st

/-- Source `publish(eventName, data)` (lines 65-80): if the bucket exists
(any array, even empty, is truthy), iterate indices `0..length-1` where
the length is fixed at entry, exactly as `forEach` does. -/
def publish (env : HEnv) (st : DispState) (eventName : String) (data : Nat) : DispState :=
  match lookupE st.events eventName with
  | none => st
  | some bucket => (List.range bucket.length).foldl (publishAt env eventName data) st

/-- Source `isSubscribed(eventName)` (lines 99-101). -/
def isSubscribed (evs : Events) (eventName : String) : Bool :=
  match lookupE evs eventName with
  | some b => b.length > 0
  | none => false

/-- Source `isSubscribedByWho(eventName)` (lines 102-108): the bucket
when the key exists (`this.events` itself is always truthy), JS `null`
(here `none`) otherwise. -/
def isSubscribedByWho (evs : Events) (eventName : String) : Option (List Record) :=
  match lookupE evs eventName with
  | some b => some b
  | none => none

/-- The initial registry of the module: `{ "default": [] }` (lines 15-17). -/
def pubsubInit : Events := [("default", [])]

/-- Splitting a character list on `'.'`, mirroring
`method.split(".")`  (never returns an empty list). -/
def splitDots : List Char → List (List Char)
  | [] => [[]]
  | c :: cs =>
      let rest := splitDots cs
      if c = '.' then [] :: rest
      else
        match rest with
        | [] => [[c]]
        | seg :: segs => (c :: seg) :: segs

/-- An inbound cross-window message carrying a `method` field; `observer`
and `args` are the string fields used by the pub/sub control branch. -/
structure Message where
  observer : String
  method : String
  args : String

/-- The `method` branch of `initPostMessaging`'s listener (lines 139-164)
for a trusted, plain-object message.  `/pubsub/i.test(method)` selects
the one-directional control branch, which switches on the last dotted
segment; the returned Bool records whether the reply-sending
`executeDotNotation` path was taken instead.  The source's switch calls
`this.subscribe` in ALL four cases — including `"unsubscribe"` and
`"unsubscribeObserver"` — which we reproduce verbatim.  In the
`"unsubscribeObserver"` case `subscribe` receives a single argument, so
its `observer` parameter is JS `undefined`, which the regex test coerces
to the string "undefined", and its `callback` is `undefined`. -/
def routeMethod (evs : Events) (msg : Message) : Events × Bool :=
  if occursIn "pubsub".data (msg.method.data.map Char.toLower) then
    let m := (splitDots msg.method.data).getLastD []
    if m = "subscribe".data ∨ m = "subscribeMultiple".data then
      (subscribe evs msg.args msg.observer (CbArg.obj 0), false)
    else if m = "unsubscribe".data then
      (subscribe evs msg.args msg.observer CbArg.undef, false)
    else if m = "unsubscribeObserver".data then
      (subscribe evs msg.observer "undefined" CbArg.undef, false)
    else (evs, false)
  else (evs, true)

/-- Handler behaviours that never mutate the registry. -/
def NonMutating (env : HEnv) : Prop := ∀ f d evs, (env f d evs).1 = evs

/-- The invocation a record contributes when dispatched with `data`. -/
def callOf (data : Nat) (r : Record) : Call :=
  match r.slot with
  | Slot.callback f => Call.localCall r.observer f data
  | Slot.payload _ => Call.remote r.observer data

/-- Number of records in a bucket registered under a given observer. -/
def countObs (l : List Record) (o : String) : Nat :=
  (l.filter (fun r => r.observer == o)).length

/-- An environment whose handlers succeed without touching the registry. -/
def idEnv : HEnv := fun _ _ evs => (evs, false)

/-- An environment whose every handler throws (without mutating). -/
def throwEnv : HEnv := fun _ _ evs => (evs, true)

/-- An environment where callback 0 unsubscribes observer "a" from event
"evt" (a handler unsubscribing itself mid-publish) and every other
callback does nothing. -/
def selfUnsubEnv : HEnv := fun f _ evs =>
  if f = 0 then (unsubscribe evs "evt" "a", false) else (evs, false)

/-- Registry with the two-record bucket used to exercise mid-publish
self-unsubscription. -/
def evC3 : Events := [("evt", [⟨"a", Slot.callback 0⟩, ⟨"b", Slot.callback 1⟩])]

/-- Registry used to exercise the inbound router: observer "z" holds one
subscription on event "login". -/
def evC2 : Events := [("default", []), ("login", [⟨"z", Slot.callback 7⟩])]

/-- Registry with a two-record bucket whose first handler will throw. -/
def evIso : Events := [("evt", [⟨"w", Slot.callback 0⟩, ⟨"v", Slot.callback 1⟩])]

/-- Registry where observer "x" is subscribed twice to "evt", before "y". -/
def evDup : Events :=
  [("evt", [⟨"x", Slot.callback 0⟩, ⟨"x", Slot.callback 1⟩, ⟨"y", Slot.callback 2⟩])]

/-- Registry where observer "z" is subscribed on two different events,
interleaved with another observer "w". -/
def evTwo : Events :=
  [("A", [⟨"z", Slot.callback 0⟩, ⟨"w", Slot.callback 1⟩, ⟨"z", Slot.callback 2⟩]),
   ("B", [⟨"z", Slot.callback 3⟩])]

lemma lookupE_setBucket_self (evs : Events) (k : String) (b : List Record) :
    lookupE (setBucket evs k b) k = some b := by
  induction evs with
  | nil => simp [setBucket, lookupE]
  | cons kv rest ih =>
    obtain ⟨k', v⟩ := kv
    by_cases h : k' = k
    · simp [setBucket, lookupE, h]
    · simp [setBucket, lookupE, h, ih]

lemma lookupE_setBucket_ne (evs : Events) (k k' : String) (b : List Record)
    (h : k' ≠ k) : lookupE (setBucket evs k b) k' = lookupE evs k' := by
  induction evs with
  | nil => simp [setBucket, lookupE, Ne.symm h]
  | cons kv rest ih =>
    obtain ⟨k₀, v⟩ := kv
    by_cases hk : k₀ = k
    · subst hk
      simp [setBucket, lookupE, Ne.symm h]
    · simp [setBucket, lookupE, hk, ih]

lemma subscribe_func (evs : Events) (name o : String) (f : Nat) (hn : name ≠ "") :
    subscribe evs name o (CbArg.func f) =
      setBucket evs name ((lookupE evs name).getD [] ++ [⟨o, Slot.callback f⟩]) := by
  simp [subscribe, hn]

lemma lookupE_subscribe_func (evs : Events) (name o : String) (f : Nat) (hn : name ≠ "") :
    lookupE (subscribe evs name o (CbArg.func f)) name =
      some ((lookupE evs name).getD [] ++ [⟨o, Slot.callback f⟩]) := by
  rw [subscribe_func evs name o f hn, lookupE_setBucket_self]

lemma foldl_publishAt_eq (env : HEnv) (hm : NonMutating env) (name : String) (d : Nat) :
    ∀ (ks : List Nat) (st : DispState),
      ks.foldl (publishAt env name d) st =
        ⟨st.events,
          st.trace ++ ks.filterMap
            (fun k => (((lookupE st.events name).getD [])[k]?).map (callOf d))⟩ := by
  intro ks
  induction ks with
  | nil => intro st; simp
  | cons k ks ih =>
    intro st
    rw [List.foldl_cons, ih, List.filterMap_cons]
    cases hb : (((lookupE st.events name).getD [])[k]?) with
    | none => simp [publishAt, hb]
    | some inst =>
      cases hs : inst.slot with
      | payload p =>
        simp [publishAt, hb, dispatchOne, hs, callOf]
      | callback f =>
        simp [publishAt, hb, dispatchOne, hs, callOf, hm f d st.events]

lemma filterMap_range_get {α β : Type} (g : α → β) :
    ∀ l : List α,
      (List.range l.length).filterMap (fun k => (l[k]?).map g) = l.map g := by
  intro l
  induction l with
  | nil => simp
  | cons a l ih =>
    rw [List.length_cons, List.range_succ_eq_map, List.filterMap_cons, List.filterMap_map]
    simp only [List.getElem?_cons_zero, Option.map_some', Function.comp_def,
      List.getElem?_cons_succ, List.map_cons]
    rw [ih]

lemma publish_nonmut (env : HEnv) (hm : NonMutating env) (evs : Events) (tr : List Call)
    (name : String) (bucket : List Record) (d : Nat)
    (hb : lookupE evs name = some bucket) :
    publish env ⟨evs, tr⟩ name d = ⟨evs, tr ++ bucket.map (callOf d)⟩ := by
  have h1 := foldl_publishAt_eq env hm name d (List.range bucket.length) ⟨evs, tr⟩
  simp only [publish, hb]
  rw [h1]
  simp [hb, filterMap_range_get]

lemma publish_unknown (env : HEnv) (evs : Events) (tr : List Call) (name : String)
    (d : Nat) (h : lookupE evs name = none) :
    publish env ⟨evs, tr⟩ name d = ⟨evs, tr⟩ := by
  simp only [publish, h]

lemma idEnv_nonmut : NonMutating idEnv := fun _ _ _ => rfl

lemma throwEnv_nonmut : NonMutating throwEnv := fun _ _ _ => rfl

lemma removeFirst_countObs (o : String) :
    ∀ l : List Record, countObs (removeFirst l o) o = countObs l o - 1 := by
  intro l
  induction l with
  | nil => simp [removeFirst, countObs]
  | cons r rs ih =>
    by_cases h : r.observer = o
    · simp [removeFirst, countObs, h, List.filter_cons]
    · simpa [removeFirst, countObs, List.filter_cons, beq_iff_eq, h] using ih

lemma removeFirst_filter_ne (o : String) :
    ∀ l : List Record,
      (removeFirst l o).filter (fun r => r.observer != o) =
        l.filter (fun r => r.observer != o) := by
  intro l
  induction l with
  | nil => simp [removeFirst]
  | cons r rs ih =>
    by_cases h : r.observer = o
    · simp [removeFirst, h, List.filter_cons]
    · simp [removeFirst, h, List.filter_cons, bne_iff_ne, ih]

lemma lookupE_map_filter (o : String) :
    ∀ (evs : Events) (k : String),
      lookupE (evs.map (fun kv => (kv.1, kv.2.filter (fun r => r.observer != o)))) k =
        (lookupE evs k).map (fun l => l.filter (fun r => r.observer != o)) := by
  intro evs
  induction evs with
  | nil => intro k; simp [lookupE]
  | cons kv rest ih =>
    intro k
    obtain ⟨k₀, v⟩ := kv
    by_cases h : k₀ = k
    · simp [lookupE, h]
    · simp [lookupE, h, ih]

lemma foldl_subscribe_cons (name : String) (hn : name ≠ "") :
    ∀ (cs : List (String × Nat)) (evs : Events) (o : String) (f : Nat),
      lookupE (((o, f) :: cs).foldl
          (fun e c => subscribe e name c.1 (CbArg.func c.2)) evs) name =
        some ((lookupE evs name).getD [] ++
          ((o, f) :: cs).map (fun c => (⟨c.1, Slot.callback c.2⟩ : Record))) := by
  intro cs
  induction cs with
  | nil =>
    intro evs o f
    simpa using lookupE_subscribe_func evs name o f hn
  | cons c cs ih =>
    intro evs o f
    obtain ⟨o₂, f₂⟩ := c
    rw [List.foldl_cons]
    have h := ih (subscribe evs name o (CbArg.func f)) o₂ f₂
    rw [List.foldl_cons] at h ⊢
    rw [h, lookupE_subscribe_func evs name o f hn]
    simp

/-- Claim C1: if the handler of record `i` throws during
`publish(eventName, data)`, the exception is caught inside `publish` (the
try/catch discards the thrown flag, so the result does not depend on it)
and the handlers of all later records are still invoked with `data`:
whatever the throw flags of the environment, the trace is the full bucket
in order, and `publish` returns normally with the registry intact (it is
a total function, so nothing propagates to the caller). -/
theorem c1_publish_isolation (env : HEnv) (hm : NonMutating env) (evs : Events)
    (tr : List Call) (name : String) (bucket : List Record) (d i f : Nat) (r : Record)
    (hb : lookupE evs name = some bucket) (hi : bucket[i]? = some r)
    (hr : r.slot = Slot.callback f) (hthrows : (env f d evs).2 = true) :
    publish env ⟨evs, tr⟩ name d = ⟨evs, tr ++ bucket.map (callOf d)⟩ :=
  publish_nonmut env hm evs tr name bucket d hb

/-- Witness for C1: under an environment where every handler throws, both
records of the "evt" bucket are still dispatched, in order. -/
theorem c1_publish_isolation_witness :
    publish throwEnv ⟨evIso, []⟩ "evt" 5 =
      ⟨evIso,
        [] ++ ([⟨"w", Slot.callback 0⟩, ⟨"v", Slot.callback 1⟩] : List Record).map (callOf 5)⟩ :=
  c1_publish_isolation throwEnv throwEnv_nonmut evIso [] "evt"
    [⟨"w", Slot.callback 0⟩, ⟨"v", Slot.callback 1⟩] 5 0 0 ⟨"w", Slot.callback 0⟩
    rfl rfl rfl rfl

/-- Claim C2 is contradicted by the code: in `initPostMessaging` the
`switch` arms labelled `"unsubscribe"` and `"unsubscribeObserver"` call
`this.subscribe` (source lines 149-154), not the unsubscribe operations
their labels, the module's own usage docs (lines 10-11) and the spec
describe.  At the spec's Scenario E input, with observer "z" subscribed
to "login", the message `{observer:"https://x",
method:"app.pubsub.unsubscribeObserver", args:"z"}` leaves the registry
completely unchanged ("z" is not removed from any bucket), and a
`method:"app.pubsub.unsubscribe"` message for event "login" even ADDS a
remote record for "https://x" to the "login" bucket instead of removing
anything.  (No reply is sent in either case, which is the one part of
the claim the code does satisfy.) -/
theorem c2_router_divergence :
    routeMethod evC2 ⟨"https://x", "app.pubsub.unsubscribeObserver", "z"⟩ = (evC2, false) ∧
    routeMethod evC2 ⟨"https://x", "app.pubsub.unsubscribe", "login"⟩ =
      ([("default", []),
        ("login", [⟨"z", Slot.callback 7⟩, ⟨"https://x", Slot.payload CbArg.undef⟩])],
       false) := by
  decide

/-- Counterexample to claim C3: `publish` iterates the live bucket (plain
`forEach`, no copy).  With bucket `[a, b]` where a's handler unsubscribes
"a" from the event mid-publish (an in-place splice), record b — present
when `publish` began — is never invoked: the claim that every record
present at the start is invoked exactly once is false. -/
theorem c3_snapshot_counterexample :
    (publish selfUnsubEnv ⟨evC3, []⟩ "evt" 5).trace = [Call.localCall "a" 0 5] ∧
    Call.localCall "b" 1 5 ∉ (publish selfUnsubEnv ⟨evC3, []⟩ "evt" 5).trace := by
  decide

/-- Claim C3 as amended: `publish` iterates the live bucket, not a
snapshot; a handler that unsubscribes itself mid-publish shifts the
array under the fixed-length index loop, so the record immediately
following it is skipped (for any published data value): only the
self-unsubscribing handler runs, the skipped record survives in the
registry, and its invocation never appears in the trace. -/
theorem c3_live_iteration (d : Nat) :
    (publish selfUnsubEnv ⟨evC3, []⟩ "evt" d).trace = [Call.localCall "a" 0 d] ∧
    (publish selfUnsubEnv ⟨evC3, []⟩ "evt" d).events = [("evt", [⟨"b", Slot.callback 1⟩])] ∧
    Call.localCall "b" 1 d ∉ (publish selfUnsubEnv ⟨evC3, []⟩ "evt" d).trace := by
  refine ⟨rfl, rfl, fun hmem => ?_⟩
  have h : Call.localCall "b" 1 d ∈ [Call.localCall "a" 0 d] := hmem
  rw [List.mem_singleton] at h
  injection h with h1 h2 h3
  exact absurd h1 (by decide)

/-- Claim C4: for every sequence of `subscribe` calls with callable
handlers to the same (truthy) event name, `publish` invokes each
registered handler exactly once, in subscription order, after whatever
was already in the bucket — the trace is literally the subscription list
in order, so duplicate subscriptions of the same observer both fire. -/
theorem c4_publish_order (env : HEnv) (hm : NonMutating env) (evs : Events)
    (name : String) (calls : List (String × Nat)) (d : Nat) (hn : name ≠ "") :
    (publish env
        ⟨calls.foldl (fun e c => subscribe e name c.1 (CbArg.func c.2)) evs, []⟩
        name d).trace =
      ((lookupE evs name).getD []).map (callOf d) ++
        calls.map (fun c => Call.localCall c.1 c.2 d) := by
  cases calls with
  | nil =>
    cases hl : lookupE evs name with
    | none =>
      rw [List.foldl_nil, publish_unknown env evs [] name d hl]
      simp [hl]
    | some b =>
      rw [List.foldl_nil, publish_nonmut env hm evs [] name b d hl]
      simp [hl]
  | cons c cs =>
    obtain ⟨o, f⟩ := c
    have h7 := foldl_subscribe_cons name hn cs evs o f
    rw [publish_nonmut env hm _ [] name _ d h7]
    simp [callOf, List.map_map, Function.comp_def]

/-- Witness for C4: subscribing "x" twice and "y" once to "login" and
publishing delivers three calls in subscription order, the duplicate
firing twice. -/
theorem c4_publish_order_witness :
    (publish idEnv
        ⟨[("x", 1), ("x", 1), ("y", 2)].foldl
            (fun e c => subscribe e "login" c.1 (CbArg.func c.2)) pubsubInit, []⟩
        "login" 9).trace =
      ((lookupE pubsubInit "login").getD []).map (callOf 9) ++
        [("x", 1), ("x", 1), ("y", 2)].map (fun c => Call.localCall c.1 c.2 9) :=
  c4_publish_order idEnv idEnv_nonmut pubsubInit "login"
    [("x", 1), ("x", 1), ("y", 2)] 9 (by decide)

/-- Claim C5: `unsubscribe(eventName, observer)` removes exactly the
first matching record of the bucket and stops: the records of all other
observers are untouched (same records, same relative order), the match
count for the given observer drops by exactly one, and in particular an
observer subscribed twice is left with exactly one subscription. -/
theorem c5_unsubscribe_first_match (evs : Events) (name o : String) (l : List Record)
    (hn : name ≠ "") (hl : lookupE evs name = some l) :
    lookupE (unsubscribe evs name o) name = some (removeFirst l o) ∧
    (removeFirst l o).filter (fun r => r.observer != o) =
      l.filter (fun r => r.observer != o) ∧
    countObs (removeFirst l o) o = countObs l o - 1 ∧
    (countObs l o = 2 → countObs (removeFirst l o) o = 1) := by
  refine ⟨?_, removeFirst_filter_ne o l, removeFirst_countObs o l, fun h2 => ?_⟩
  · simp [unsubscribe, hl, hn, lookupE_setBucket_self]
  · rw [removeFirst_countObs o l, h2]

/-- Witness for C5: with "x" subscribed twice to "evt" ahead of "y", one
`unsubscribe` leaves one "x" record, "y" untouched. -/
theorem c5_unsubscribe_first_match_witness :
    lookupE (unsubscribe evDup "evt" "x") "evt" =
      some (removeFirst
        [⟨"x", Slot.callback 0⟩, ⟨"x", Slot.callback 1⟩, ⟨"y", Slot.callback 2⟩] "x") ∧
    (removeFirst
        [⟨"x", Slot.callback 0⟩, ⟨"x", Slot.callback 1⟩, ⟨"y", Slot.callback 2⟩]
        "x").filter (fun r => r.observer != "x") =
      ([⟨"x", Slot.callback 0⟩, ⟨"x", Slot.callback 1⟩, ⟨"y", Slot.callback 2⟩]
        : List Record).filter (fun r => r.observer != "x") ∧
    countObs (removeFirst
        [⟨"x", Slot.callback 0⟩, ⟨"x", Slot.callback 1⟩, ⟨"y", Slot.callback 2⟩] "x") "x" =
      countObs
        [⟨"x", Slot.callback 0⟩, ⟨"x", Slot.callback 1⟩, ⟨"y", Slot.callback 2⟩] "x" - 1 ∧
    (countObs
        [⟨"x", Slot.callback 0⟩, ⟨"x", Slot.callback 1⟩, ⟨"y", Slot.callback 2⟩] "x" = 2 →
      countObs (removeFirst
        [⟨"x", Slot.callback 0⟩, ⟨"x", Slot.callback 1⟩, ⟨"y", Slot.callback 2⟩] "x") "x" = 1) :=
  c5_unsubscribe_first_match evDup "evt" "x"
    [⟨"x", Slot.callback 0⟩, ⟨"x", Slot.callback 1⟩, ⟨"y", Slot.callback 2⟩]
    (by decide) rfl

/-- Claim C6: a single `unsubscribeObserver(observer)` call (with a
truthy observer, per the source's `!!observer` guard) replaces every
bucket by that bucket with all records of the given observer filtered
out: all occurrences disappear from every event, while the records of
every other observer survive unchanged and in order. -/
theorem c6_unsubscribe_observer_everywhere (evs : Events) (o : String) (ho : o ≠ "")
    (k : String) (l : List Record) (hl : lookupE evs k = some l) :
    lookupE (unsubscribeObserver evs o) k = some (l.filter (fun r => r.observer != o)) ∧
    ∀ r ∈ l.filter (fun r => r.observer != o), r.observer ≠ o := by
  constructor
  · simp [unsubscribeObserver, ho, lookupE_map_filter, hl]
  · intro r hr
    simp only [List.mem_filter, bne_iff_ne] at hr
    exact hr.2

/-- Witness for C6: removing "z" empties both of its occurrences from the
"A" bucket while keeping "w". -/
theorem c6_unsubscribe_observer_everywhere_witness :
    lookupE (unsubscribeObserver evTwo "z") "A" =
      some (([⟨"z", Slot.callback 0⟩, ⟨"w", Slot.callback 1⟩, ⟨"z", Slot.callback 2⟩]
        : List Record).filter (fun r => r.observer != "z")) ∧
    ∀ r ∈ ([⟨"z", Slot.callback 0⟩, ⟨"w", Slot.callback 1⟩, ⟨"z", Slot.callback 2⟩]
        : List Record).filter (fun r => r.observer != "z"), r.observer ≠ "z" :=
  c6_unsubscribe_observer_everywhere evTwo "z" (by decide) "A"
    [⟨"z", Slot.callback 0⟩, ⟨"w", Slot.callback 1⟩, ⟨"z", Slot.callback 2⟩] rfl

/-- Counterexample to claim C7: the guard of `subscribeMultiple` is
`!!eventNames && Array.isArray(eventNames)`, so when `eventNames` IS an
array but the handler is not callable — or the array is empty, which is
still truthy in JS — the `else` branch with the `console.error`
diagnostic is never reached.  At both such inputs the registry is left
unchanged but the diagnostic flag is `false`, refuting the claim that
every failing call logs an advisory diagnostic. -/
theorem c7_diagnostic_counterexample :
    subscribeMultiple pubsubInit (ArrArg.arr ["signin"]) "z" CbArg.undef =
      (pubsubInit, false) ∧
    subscribeMultiple pubsubInit (ArrArg.arr []) "z" (CbArg.func 3) =
      (pubsubInit, false) := by
  decide

/-- Claim C7 as amended: when `eventNames` is not an array,
`subscribeMultiple` logs the advisory diagnostic and leaves the registry
unchanged; when `eventNames` is an array but the handler is not callable,
or the array is empty, it leaves the registry unchanged but silently,
without any diagnostic.  In every failing case nothing is registered. -/
theorem c7_subscribe_multiple_guard (evs : Events) (o : String) (cb : CbArg) (t : Bool)
    (names : List String) (hcb : ∀ f, cb ≠ CbArg.func f) :
    subscribeMultiple evs (ArrArg.nonArr t) o cb = (evs, true) ∧
    subscribeMultiple evs (ArrArg.arr names) o cb = (evs, false) ∧
    ∀ cb₂ : CbArg, subscribeMultiple evs (ArrArg.arr []) o cb₂ = (evs, false) := by
  refine ⟨rfl, ?_, ?_⟩
  · cases cb with
    | func f => exact absurd rfl (hcb f)
    | obj p => rfl
    | undef => rfl
  · intro cb₂
    cases cb₂ <;> rfl

/-- Witness for C7 (amended): a non-array argument logs and no-ops; an
array with a non-callable handler, or an empty array, no-ops silently. -/
theorem c7_subscribe_multiple_guard_witness :
    subscribeMultiple pubsubInit (ArrArg.nonArr false) "z" CbArg.undef =
      (pubsubInit, true) ∧
    subscribeMultiple pubsubInit (ArrArg.arr ["signout"]) "z" CbArg.undef =
      (pubsubInit, false) ∧
    ∀ cb₂ : CbArg, subscribeMultiple pubsubInit (ArrArg.arr []) "z" cb₂ =
      (pubsubInit, false) :=
  c7_subscribe_multiple_guard pubsubInit "z" CbArg.undef false ["signout"]
    (fun _ h => CbArg.noConfusion h)

/-- Claim C8: on a never-seen event name, `publish` is a complete no-op
(state and trace untouched, and it returns normally), `unsubscribe` is a
no-op, and `isSubscribedByWho` returns the null-equivalent `none`; on a
known event name whose bucket is empty, `isSubscribedByWho` instead
returns `some []`, distinguishing the two cases. -/
theorem c8_unknown_event_safety (env : HEnv) (evs : Events) (tr : List Call)
    (u k o : String) (d : Nat)
    (hu : lookupE evs u = none) (hk : lookupE evs k = some []) :
    publish env ⟨evs, tr⟩ u d = ⟨evs, tr⟩ ∧
    unsubscribe evs u o = evs ∧
    isSubscribedByWho evs u = none ∧
    isSubscribedByWho evs k = some [] := by
  refine ⟨publish_unknown env evs tr u d hu, ?_, ?_, ?_⟩
  · simp [unsubscribe, hu]
  · simp [isSubscribedByWho, hu]
  · simp [isSubscribedByWho, hk]

/-- Witness for C8: on the initial registry, "nope" is unknown and
"default" is known but empty. -/
theorem c8_unknown_event_safety_witness :
    publish idEnv ⟨pubsubInit, []⟩ "nope" 0 = ⟨pubsubInit, []⟩ ∧
    unsubscribe pubsubInit "nope" "x" = pubsubInit ∧
    isSubscribedByWho pubsubInit "nope" = none ∧
    isSubscribedByWho pubsubInit "default" = some [] :=
  c8_unknown_event_safety idEnv pubsubInit [] "nope" "default" "x" 0 rfl rfl

/-- Claim C9: when `subscribe` gets a truthy event name, a callable
handler AND an observer matching the URL pattern, the callable branch
wins: the record is appended with a `callback` slot (no `payload` field),
and `publish` dispatches that record as a local call — its trace entry is
`Call.localCall`, never the remote-bridge `Call.remote`.  (The URL-match
hypothesis is not needed by the proof, which is exactly the point: the
callable branch takes priority.) -/
theorem c9_callable_branch_priority (env : HEnv) (hm : NonMutating env) (evs : Events)
    (name o : String) (f d : Nat) (hn : name ≠ "") (hh : isHttpObserver o = true) :
    lookupE (subscribe evs name o (CbArg.func f)) name =
      some ((lookupE evs name).getD [] ++ [⟨o, Slot.callback f⟩]) ∧
    (publish env ⟨subscribe evs name o (CbArg.func f), []⟩ name d).trace =
      ((lookupE evs name).getD []).map (callOf d) ++ [Call.localCall o f d] := by
  have h1 := lookupE_subscribe_func evs name o f hn
  refine ⟨h1, ?_⟩
  rw [publish_nonmut env hm _ [] name _ d h1]
  simp [callOf]

/-- Witness for C9: the URL-shaped observer "https://x" subscribed with a
callable handler is delivered locally. -/
theorem c9_callable_branch_priority_witness :
    lookupE (subscribe pubsubInit "login" "https://x" (CbArg.func 3)) "login" =
      some ((lookupE pubsubInit "login").getD [] ++ [⟨"https://x", Slot.callback 3⟩]) ∧
    (publish idEnv ⟨subscribe pubsubInit "login" "https://x" (CbArg.func 3), []⟩
        "login" 4).trace =
      ((lookupE pubsubInit "login").getD []).map (callOf 4) ++
        [Call.localCall "https://x" 3 4] :=
  c9_callable_branch_priority idEnv idEnv_nonmut pubsubInit "login" "https://x" 3 4
    (by decide) (by decide)

/-- Claim C10: provided no handler mutates the registry, `publish` leaves
the entire event-name-to-bucket mapping exactly as it was — it never
creates, deletes or modifies a bucket itself — and in particular
publishing a never-seen event name creates no bucket, so
`isSubscribedByWho` on that name still returns `none` afterwards. -/
theorem c10_publish_frame (env : HEnv) (hm : NonMutating env) (evs : Events)
    (tr : List Call) (name : String) (d : Nat) :
    (publish env ⟨evs, tr⟩ name d).events = evs ∧
    (lookupE evs name = none →
      isSubscribedByWho (publish env ⟨evs, tr⟩ name d).events name = none) := by
  have he : (publish env ⟨evs, tr⟩ name d).events = evs := by
    cases hl : lookupE evs name with
    | none => rw [publish_unknown env evs tr name d hl]
    | some b => rw [publish_nonmut env hm evs tr name b d hl]
  refine ⟨he, fun hnone => ?_⟩
  rw [he]
  simp [isSubscribedByWho, hnone]

/-- Witness for C10: publishing the unknown name "nope" on the initial
registry changes nothing and creates no bucket. -/
theorem c10_publish_frame_witness :
    (publish idEnv ⟨pubsubInit, []⟩ "nope" 0).events = pubsubInit ∧
    isSubscribedByWho (publish idEnv ⟨pubsubInit, []⟩ "nope" 0).events "nope" = none :=
  ⟨(c10_publish_frame idEnv idEnv_nonmut pubsubInit [] "nope" 0).1,
   (c10_publish_frame idEnv idEnv_nonmut pubsubInit [] "nope" 0).2 rfl⟩

end PubSub
